import Mathlib

/-!
Verification development for the SVSM vTPM attestation test program
(`src/main.rs`).  The program is a single sequential pipeline: it drives
the Linux configfs-tsm interface (writes a provider selector, a 64-byte
nonce and a service GUID; reads back an attestation report blob and a
manifest blob), persists the report blob to `report.bin`, decodes the
report, builds the default RSA EK template, derives the device EK public
key through a TPM context, and finally performs two assert-based checks:
the marshalled device EK public must equal the manifest, and
SHA-512(nonce ++ manifest) must equal the report's `report_data` field.

The pipeline is embedded shallowly: every interaction with the outside
world (filesystem attributes, environment variable, TPM) is a field of an
`Env` record, and `main` maps an `Env` to the ordered trace of performed
I/O steps together with the run's outcome (success, or a panic at a
specific stage, mirroring the Rust `expect`/`assert_eq!` aborts).
-/

namespace SvsmVtpmTest

/-- Bytes are modelled as lists of naturals (each intended `< 256`). -/
abbrev Bytes := List Nat

/-- The fixed nonce from `main.rs`: `let nonce: [u8; 64] = [0xff; 64];`. -/
def nonce : Bytes := List.replicate 64 255

/-- The vTPM attestation service GUID written to the `service_guid`
attribute in `main.rs`. -/
def attest_vtpm_guid : String := "c476f1eb-0123-45a5-9641-b4e7dde5bfe3"

/-- The asymmetric algorithm selector of the tss-esapi crate
(`AsymmetricAlgorithm`): RSA, ECC, or the null algorithm. -/
inductive AsymmetricAlgorithm
  | Rsa
  | Ecc
  | Null
deriving DecidableEq, Repr

/-- The decoded attestation report.  Of the vendor record only the
64-byte `report_data` digest field is relevant to the pipeline. -/
structure StructuredReport where
  report_data : Bytes
deriving DecidableEq, Repr

/-- Decode failure. -/
inductive DecodeError
  | Malformed
deriving DecidableEq, Repr

/-- Byte size of the fixed-size vendor attestation report record. -/
def reportSize : Nat := 1184

/-- Byte offset of the 64-byte `report_data` field inside the record. -/
def reportDataOffset : Nat := 80

/-- Modelled from the spec: the Report Decoder
(`bincode::deserialize::<AttestationReport>` in `main.rs` line 82; the
deserializer itself lives in the external `sev`/`bincode` crates, not in
this repository).  The report is a fixed-size vendor record whose only
relevant field is the 64-byte `report_data` digest at a known offset;
decoding fails with `DecodeError.Malformed` when the byte length is too
short for the fixed-size binary schema, returning an error value and no
partial structured report. -/
def decode (raw : Bytes) : Except DecodeError StructuredReport :=
  if reportSize ≤ raw.length then
    .ok ⟨(raw.drop reportDataOffset).take 64⟩
  else
    .error .Malformed

/-- Reference-key-builder failure. -/
inductive TemplateError
  | UnsupportedAlgorithm
deriving DecidableEq, Repr

/-- The deterministic default EK public-key template. -/
structure EkTemplate where
  algorithm : AsymmetricAlgorithm
  keyBits : Nat
deriving DecidableEq, Repr

/-- Modelled from the spec: the Reference Key Builder
(`ek::create_ek_public_from_default_template` in `main.rs` line 91; the
builder itself lives in the external tss-esapi crate, not in this
repository).  It deterministically produces the canonical default EK
template for RSA-2048 or an ECC curve, and fails with
`TemplateError.UnsupportedAlgorithm` for an algorithm without a
published default profile (the null algorithm). -/
def create_ek_public_from_default_template :
    AsymmetricAlgorithm → Except TemplateError EkTemplate
  | .Rsa => .ok ⟨.Rsa, 2048⟩
  | .Ecc => .ok ⟨.Ecc, 256⟩
  | .Null => .error .UnsupportedAlgorithm

/-- The environment a run of the program interacts with: the contents the
OS and TPM supply, and whether each fallible external operation
succeeds.  `none` for a blob means the corresponding read fails. -/
structure Env where
  /-- The `-s`/`--svsm-attribute` CLI flag. -/
  svsm_attribute : Bool
  /-- `tempdir_in("/sys/kernel/config/tsm/report")` succeeds. -/
  tempdirOk : Bool
  /-- The provider-selector attribute write succeeds. -/
  providerWriteOk : Bool
  /-- The `inblob` attribute write succeeds. -/
  inblobWriteOk : Bool
  /-- The `service_guid` attribute write succeeds. -/
  guidWriteOk : Bool
  /-- Contents of the `outblob` attribute, if readable. -/
  outblob : Option Bytes
  /-- The write of `report.bin` succeeds. -/
  reportBinWriteOk : Bool
  /-- Contents of the `manifestblob` attribute, if readable. -/
  manifestblob : Option Bytes
  /-- The `TCTI` environment variable, if set. -/
  tcti : Option String
  /-- Whether the path `/dev/tpmrm0` exists. -/
  tpmrm0Exists : Bool
  /-- `TctiNameConf::from_str` succeeds on the chosen path. -/
  tctiParseOk : Bool
  /-- `Context::new` succeeds. -/
  contextOk : Bool
  /-- Marshalled `out_public` of the EK primary key created on the
  device, if `create_primary` and `marshall` succeed. -/
  devicePub : Option Bytes
  /-- The SHA-512 digest function supplied by the `sha2` crate. -/
  sha512 : Bytes → Bytes

/-- One externally visible I/O step of a run, in program order. -/
inductive Step
  | writeSvsm (s : String)
  | writeServiceProvider (s : String)
  | writeInblob (b : Bytes)
  | writeServiceGuid (s : String)
  | readOutblob (b : Bytes)
  | writeReportBin (b : Bytes)
  | readManifestblob (b : Bytes)
  | decodeReport (raw : Bytes)
  | buildEkTemplate (a : AsymmetricAlgorithm)
  | openContext (path : String)
  | createPrimary (pub : Bytes)
  | keyCheck (dev man : Bytes)
  | hashCheck (digest rd : Bytes)
deriving DecidableEq, Repr

/-- The stage at which a run can panic (each `expect`/`unwrap`/
`assert_eq!` in `main.rs`). -/
inductive Stage
  | tempdir
  | providerWrite
  | inblobWrite
  | guidWrite
  | outblobRead
  | reportBinWrite
  | manifestRead
  | decodeStage
  | ekTemplate
  | tctiParse
  | contextNew
  | createPrimaryStage
  | keyMismatch
  | hashMismatch
deriving DecidableEq, Repr

/-- Outcome of a run: clean termination, or a panic at some stage. -/
inductive Outcome
  | ok
  | panicked (s : Stage)
deriving DecidableEq, Repr

/-- The provider-selection write performed by the run: the legacy `svsm`
flag attribute (value `"1"`) under `--svsm-attribute`, otherwise the
`service_provider` attribute (value `"svsm"`). -/
def providerStep (env : Env) : Step :=
  if env.svsm_attribute then .writeSvsm "1" else .writeServiceProvider "svsm"

/-- The TCTI device path (`main.rs` lines 104-110): the `TCTI`
environment variable if set, else `device:/dev/tpmrm0` when
`/dev/tpmrm0` exists, else `device:/dev/tpm0`. -/
def tcti_path (env : Env) : String :=
  match env.tcti with
  | some v => v
  | none =>
    if env.tpmrm0Exists then "device:/dev/tpmrm0" else "device:/dev/tpm0"

/-- Shallow embedding of `fn main` of `main.rs`: the ordered trace of
performed I/O steps, and the outcome.  Each `expect`/`unwrap` is an
early exit with a `panicked` outcome; the two `assert_eq!` checks panic
with `keyMismatch` resp. `hashMismatch` when the compared bytes
differ. -/
def main (env : Env) : List Step × Outcome :=
  if env.tempdirOk = false then ([], .panicked .tempdir) else
  if env.providerWriteOk = false then ([], .panicked .providerWrite) else
  let t1 := [providerStep env]
  if env.inblobWriteOk = false then (t1, .panicked .inblobWrite) else
  let t2 := t1 ++ [Step.writeInblob nonce]
  if env.guidWriteOk = false then (t2, .panicked .guidWrite) else
  let t3 := t2 ++ [Step.writeServiceGuid attest_vtpm_guid]
  match env.outblob with
  | none => (t3, .panicked .outblobRead)
  | some outblob =>
    let t4 := t3 ++ [Step.readOutblob outblob]
    if env.reportBinWriteOk = false then (t4, .panicked .reportBinWrite) else
    let t5 := t4 ++ [Step.writeReportBin outblob]
    match env.manifestblob with
    | none => (t5, .panicked .manifestRead)
    | some manifest =>
      let t6 := t5 ++ [Step.readManifestblob manifest]
      match decode outblob with
      | .error _ => (t6 ++ [Step.decodeReport outblob], .panicked .decodeStage)
      | .ok report =>
        let t7 := t6 ++ [Step.decodeReport outblob]
        match create_ek_public_from_default_template .Rsa with
        | .error _ => (t7, .panicked .ekTemplate)
        | .ok _ekPublic =>
          let t8 := t7 ++ [Step.buildEkTemplate .Rsa]
          if env.tctiParseOk = false then (t8, .panicked .tctiParse) else
          if env.contextOk = false then (t8, .panicked .contextNew) else
          let t9 := t8 ++ [Step.openContext (tcti_path env)]
          match env.devicePub with
          | none => (t9, .panicked .createPrimaryStage)
          | some ekpub_tmpt_pub =>
            let t10 := t9 ++ [Step.createPrimary ekpub_tmpt_pub]
            let t11 := t10 ++ [Step.keyCheck ekpub_tmpt_pub manifest]
            if ekpub_tmpt_pub = manifest then
              let hash_in := nonce ++ manifest
              let digest := env.sha512 hash_in
              let t12 := t11 ++ [Step.hashCheck digest report.report_data]
              if digest = report.report_data then (t12, .ok)
              else (t12, .panicked .hashMismatch)
            else (t11, .panicked .keyMismatch)

/-- Whether a trace contains an evaluation of the hash-binding check. -/
def hasHashCheck (t : List Step) : Bool :=
  t.any fun s =>
    match s with
    | .hashCheck _ _ => true
    | _ => false

/-- A step belonging to a pipeline stage that runs after the raw report
has been persisted to `report.bin`. -/
def laterStage : Step → Bool
  | .readManifestblob _ => true
  | .decodeReport _ => true
  | .buildEkTemplate _ => true
  | .openContext _ => true
  | .createPrimary _ => true
  | .keyCheck _ _ => true
  | .hashCheck _ _ => true
  | _ => false

/-- A well-formed `outblob`: a report record of the schema size whose
`report_data` field is 64 zero bytes. -/
def goodOutblob : Bytes := List.replicate 1184 0

/-- A concrete stand-in digest function for closed runs: it returns the
64 zero bytes that `goodOutblob` carries in its `report_data` field. -/
def sha0 : Bytes → Bytes := fun _ => List.replicate 64 0

/-- A concrete environment on which the whole pipeline succeeds: every
external operation succeeds, the manifest equals the marshalled device
EK public key, and `report_data` matches the digest of
nonce ++ manifest. -/
def envOk : Env :=
  { svsm_attribute := false
    tempdirOk := true
    providerWriteOk := true
    inblobWriteOk := true
    guidWriteOk := true
    outblob := some goodOutblob
    reportBinWriteOk := true
    manifestblob := some [5]
    tcti := none
    tpmrm0Exists := true
    tctiParseOk := true
    contextOk := true
    devicePub := some [5]
    sha512 := sha0 }

/-- Like `envOk`, but the device EK public key differs from the manifest
(in the last byte sense: `[7]` vs `[5]`) while the hash binding is still
correct, so only the key-match check fails. -/
def envMismatch : Env := { envOk with devicePub := some [7] }

/-- Like `envOk`, but with the `TCTI` environment variable set and
`/dev/tpmrm0` absent. -/
def envTcti : Env :=
  { envOk with tcti := some "device:/dev/tpm9", tpmrm0Exists := false }

set_option maxRecDepth 10000

set_option maxHeartbeats 2000000

/-- Claim C1: in every run that reaches the hash-binding verification,
the digest is the SHA-512 of the exact concatenation of the 64-byte
nonce immediately followed by the manifest bytes (nonce first, no
separator), the compared report field is the decoded report's
`report_data`, and the run succeeds exactly when the digest equals
`report_data` byte for byte. -/
theorem hash_binding_check (env : Env) (d rd : Bytes)
    (h : Step.hashCheck d rd ∈ (main env).1) :
    (∃ m, env.manifestblob = some m ∧ d = env.sha512 (nonce ++ m)) ∧
    (∃ ob r, env.outblob = some ob ∧ decode ob = .ok r ∧ rd = r.report_data) ∧
    ((main env).2 = .ok ↔ d = rd) := by
  obtain ⟨t, o, hm⟩ : ∃ t o, main env = (t, o) := ⟨_, _, rfl⟩
  rw [hm] at h ⊢
  unfold main providerStep at hm
  (repeat' split at hm) <;>
    (try simp only [] at hm) <;>
    (repeat' split at hm) <;>
    (injection hm with h1 h2; subst h1; subst h2) <;>
    simp_all

/-- Claim C2: whenever the key-match check is evaluated, it compares the
marshalled device EK public key against the manifest blob; any
difference makes the run abort with the key-mismatch failure, and the
run can only end cleanly when the two byte strings are identical. -/
theorem key_match_check (env : Env) (dev man : Bytes)
    (h : Step.keyCheck dev man ∈ (main env).1) :
    env.devicePub = some dev ∧ env.manifestblob = some man ∧
    (dev = man → (main env).2 ≠ .panicked .keyMismatch) ∧
    (dev ≠ man → (main env).2 = .panicked .keyMismatch) ∧
    ((main env).2 = .ok → dev = man) := by
  obtain ⟨t, o, hm⟩ : ∃ t o, main env = (t, o) := ⟨_, _, rfl⟩
  rw [hm] at h ⊢
  unfold main providerStep at hm
  (repeat' split at hm) <;>
    (try simp only [] at hm) <;>
    (repeat' split at hm) <;>
    (injection hm with h1 h2; subst h1; subst h2) <;>
    simp_all

/-- Claim C3 (amended): the verification stage is a deterministic
computation over already-retrieved data, but it aborts at the first
failing assertion instead of returning a structured verdict: when the
key-match check fails, the run ends with the key-mismatch failure and
the hash-binding check is never evaluated; the hash-binding check is
evaluated only after the key-match check passes, and its input is
nonce ++ manifest. -/
theorem verifier_abort_order (env : Env) (dev man : Bytes)
    (h : Step.keyCheck dev man ∈ (main env).1) :
    (dev ≠ man →
      (main env).2 = .panicked .keyMismatch ∧
      hasHashCheck (main env).1 = false) ∧
    (dev = man →
      ∃ rd, Step.hashCheck (env.sha512 (nonce ++ man)) rd ∈ (main env).1) := by
  obtain ⟨t, o, hm⟩ : ∃ t o, main env = (t, o) := ⟨_, _, rfl⟩
  rw [hm] at h ⊢
  unfold main providerStep at hm
  (repeat' split at hm) <;>
    (try simp only [] at hm) <;>
    (repeat' split at hm) <;>
    (injection hm with h1 h2; subst h1; subst h2) <;>
    simp_all [hasHashCheck]

/-- Claim C3 (counterexample): a concrete run in which the device EK
public key differs from the manifest while the hash binding is correct:
the run aborts with the key-mismatch panic and the hash-binding check is
never evaluated, refuting that the verifier returns a structured verdict
and that the hash-binding check is still evaluated on a key mismatch. -/
theorem verifier_aborts_counterexample :
    (main envMismatch).2 = .panicked .keyMismatch ∧
    hasHashCheck (main envMismatch).1 = false ∧
    Step.keyCheck [7] [5] ∈ (main envMismatch).1 ∧
    envMismatch.devicePub = some [7] ∧
    envMismatch.manifestblob = some [5] ∧
    envMismatch.sha512 (nonce ++ [5]) = List.replicate 64 0 ∧
    decode goodOutblob = .ok ⟨List.replicate 64 0⟩ :=
  ⟨by decide, by decide, by decide, rfl, rfl, rfl, rfl⟩

/-- Claim C4: decoding a raw report shorter than the fixed-size binary
schema returns the `Malformed` error value — no panic (the decoder is a
total function into `Except`) and no partial structured report. -/
theorem decode_short_malformed (raw : Bytes) (h : raw.length < reportSize) :
    decode raw = Except.error DecodeError.Malformed ∧
    ∀ r, decode raw ≠ Except.ok r := by
  unfold decode
  rw [if_neg (by omega)]
  exact ⟨rfl, fun r hr => by cases hr⟩

/-- Claim C5: per run exactly one provider-selection form is written —
the legacy `svsm` flag attribute with value `"1"` when the
`--svsm-attribute` flag is set, otherwise the `service_provider`
attribute with the fixed name `"svsm"` — and never both. -/
theorem provider_selector_exclusive (env : Env) :
    (∀ x, Step.writeSvsm x ∈ (main env).1 →
      env.svsm_attribute = true ∧ x = "1") ∧
    (∀ x, Step.writeServiceProvider x ∈ (main env).1 →
      env.svsm_attribute = false ∧ x = "svsm") ∧
    (¬ (Step.writeSvsm "1" ∈ (main env).1 ∧
        Step.writeServiceProvider "svsm" ∈ (main env).1)) ∧
    (env.tempdirOk = true → env.providerWriteOk = true →
      (if env.svsm_attribute then Step.writeSvsm "1"
       else Step.writeServiceProvider "svsm") ∈ (main env).1) := by
  obtain ⟨t, o, hm⟩ : ∃ t o, main env = (t, o) := ⟨_, _, rfl⟩
  rw [hm]
  unfold main providerStep at hm
  (repeat' split at hm) <;>
    (try simp only [] at hm) <;>
    (repeat' split at hm) <;>
    (injection hm with h1 h2; subst h1; subst h2) <;>
    simp_all

/-- Claim C6: all three input attributes (the provider selector, the
nonce written to `inblob`, and the service GUID) are written, in that
order, before either output attribute (`outblob`, `manifestblob`) is
read: any output read occurs strictly after the three input writes,
which are the first three steps of the trace. -/
theorem inputs_written_before_outputs_read (env : Env) :
    (∀ b, Step.readOutblob b ∈ (main env).1 →
      ∃ r, (main env).1 =
        providerStep env :: Step.writeInblob nonce ::
          Step.writeServiceGuid attest_vtpm_guid :: Step.readOutblob b :: r) ∧
    (∀ b, Step.readManifestblob b ∈ (main env).1 →
      ∃ r, (main env).1 =
        providerStep env :: Step.writeInblob nonce ::
          Step.writeServiceGuid attest_vtpm_guid :: r ∧
        Step.readManifestblob b ∈ r) := by
  obtain ⟨t, o, hm⟩ : ∃ t o, main env = (t, o) := ⟨_, _, rfl⟩
  rw [hm]
  unfold main providerStep at hm
  (repeat' split at hm) <;>
    (try simp only [] at hm) <;>
    (repeat' split at hm) <;>
    (injection hm with h1 h2; subst h1; subst h2) <;>
    simp_all [providerStep]

/-- Claim C7: the nonce is exactly 64 bytes; the bytes written to the
`inblob` attribute are exactly `nonce`; and the first segment of the
hash-binding input is that same `nonce`, so the length hashed equals
the length written to `inblob`. -/
theorem nonce_length_invariant (env : Env) :
    nonce.length = 64 ∧
    (∀ b, Step.writeInblob b ∈ (main env).1 → b = nonce) ∧
    (∀ d rd, Step.hashCheck d rd ∈ (main env).1 →
      ∃ m, env.manifestblob = some m ∧ d = env.sha512 (nonce ++ m) ∧
        (nonce ++ m).take nonce.length = nonce) := by
  obtain ⟨t, o, hm⟩ : ∃ t o, main env = (t, o) := ⟨_, _, rfl⟩
  rw [hm]
  unfold main providerStep at hm
  (repeat' split at hm) <;>
    (try simp only [] at hm) <;>
    (repeat' split at hm) <;>
    (injection hm with h1 h2; subst h1; subst h2) <;>
    simp_all [nonce, List.take_left]

/-- Claim C8: whenever any stage after report retrieval runs (manifest
read, decode, template build, context, device-key derivation, either
verification check), the exact `outblob` bytes have already been
written verbatim to `report.bin`: the trace then begins with the three
input writes, the `outblob` read, and the `report.bin` write, and all
later-stage steps come after that write — so `report.bin` is persisted
even when a later stage fails. -/
theorem report_bin_persisted_first (env : Env)
    (h : ((main env).1.any laterStage) = true) :
    ∃ ob r, env.outblob = some ob ∧
      (main env).1 =
        providerStep env :: Step.writeInblob nonce ::
          Step.writeServiceGuid attest_vtpm_guid :: Step.readOutblob ob ::
          Step.writeReportBin ob :: r ∧
      ∀ s ∈ [providerStep env, Step.writeInblob nonce,
          Step.writeServiceGuid attest_vtpm_guid, Step.readOutblob ob,
          Step.writeReportBin ob], laterStage s = false := by
  obtain ⟨t, o, hm⟩ : ∃ t o, main env = (t, o) := ⟨_, _, rfl⟩
  rw [hm] at h ⊢
  unfold main providerStep at hm
  (repeat' split at hm) <;>
    (try simp only [] at hm) <;>
    (repeat' split at hm) <;>
    (injection hm with h1 h2; subst h1; subst h2) <;>
    simp_all [providerStep, laterStage]

/-- Claim C9: the `TCTI` environment variable, when set, is used as the
key-transport device path regardless of which device files exist; when
unset, the primary default `device:/dev/tpmrm0` is chosen when
`/dev/tpmrm0` exists and the fallback `device:/dev/tpm0` otherwise; and
the TPM context a run opens uses exactly this path. -/
theorem tcti_path_selection (env : Env) :
    (∀ v, env.tcti = some v → tcti_path env = v) ∧
    (env.tcti = none →
      tcti_path env =
        if env.tpmrm0Exists then "device:/dev/tpmrm0"
        else "device:/dev/tpm0") ∧
    (∀ p, Step.openContext p ∈ (main env).1 → p = tcti_path env) := by
  refine ⟨fun v hv => by simp [tcti_path, hv], fun hn => by simp [tcti_path, hn], ?_⟩
  intro p h
  obtain ⟨t, o, hm⟩ : ∃ t o, main env = (t, o) := ⟨_, _, rfl⟩
  rw [hm] at h
  unfold main providerStep at hm
  (repeat' split at hm) <;>
    (try simp only [] at hm) <;>
    (repeat' split at hm) <;>
    (injection hm with h1 h2; subst h1; subst h2) <;>
    simp_all

/-- Claim C10: the asymmetric algorithm for the EK template is
hard-coded to RSA — every template-build step in every run uses
`AsymmetricAlgorithm.Rsa`, the default template builder succeeds on RSA
(producing the RSA-2048 template), and no run can end with the
`UnsupportedAlgorithm` template failure. -/
theorem ek_algorithm_hardcoded_rsa (env : Env) :
    (∀ a, Step.buildEkTemplate a ∈ (main env).1 →
      a = AsymmetricAlgorithm.Rsa) ∧
    create_ek_public_from_default_template AsymmetricAlgorithm.Rsa =
      Except.ok ⟨AsymmetricAlgorithm.Rsa, 2048⟩ ∧
    (main env).2 ≠ Outcome.panicked Stage.ekTemplate := by
  obtain ⟨t, o, hm⟩ : ∃ t o, main env = (t, o) := ⟨_, _, rfl⟩
  rw [hm]
  unfold main providerStep at hm
  (repeat' split at hm) <;>
    (try simp only [] at hm) <;>
    (repeat' split at hm) <;>
    (injection hm with h1 h2; subst h1; subst h2) <;>
    simp_all [create_ek_public_from_default_template]

/-- Witness for claim C1: on the concrete successful environment
`envOk` the hash-binding check is evaluated on equal digests and the
conclusion of `hash_binding_check` holds there. -/
theorem hash_binding_check_witness :
    Step.hashCheck (List.replicate 64 0) (List.replicate 64 0) ∈ (main envOk).1 ∧
    ((∃ m, envOk.manifestblob = some m ∧
        (List.replicate 64 0 : Bytes) = envOk.sha512 (nonce ++ m)) ∧
     (∃ ob r, envOk.outblob = some ob ∧ decode ob = .ok r ∧
        (List.replicate 64 0 : Bytes) = r.report_data) ∧
     ((main envOk).2 = .ok ↔ (List.replicate 64 0 : Bytes) = List.replicate 64 0)) :=
  ⟨by decide, hash_binding_check envOk _ _ (by decide)⟩

/-- Witness for claim C2: on `envOk` the key-match check is evaluated
on the equal byte strings `[5]` and `[5]` and the conclusion of
`key_match_check` holds there. -/
theorem key_match_check_witness :
    Step.keyCheck [5] [5] ∈ (main envOk).1 ∧
    (envOk.devicePub = some [5] ∧ envOk.manifestblob = some [5] ∧
     (([5] : Bytes) = [5] → (main envOk).2 ≠ .panicked .keyMismatch) ∧
     (([5] : Bytes) ≠ [5] → (main envOk).2 = .panicked .keyMismatch) ∧
     ((main envOk).2 = .ok → ([5] : Bytes) = [5])) :=
  ⟨by decide, key_match_check envOk [5] [5] (by decide)⟩

/-- Witness for claim C3 (amended): on `envMismatch` the key-match
check is evaluated on `[7]` versus `[5]`, the run aborts with the
key-mismatch failure, and no hash-binding check is evaluated. -/
theorem verifier_abort_order_witness :
    (main envMismatch).2 = .panicked .keyMismatch ∧
    hasHashCheck (main envMismatch).1 = false :=
  (verifier_abort_order envMismatch [7] [5] (by decide)).1 (by decide)

/-- Witness for claim C4: the empty raw report is shorter than the
schema and decodes to the `Malformed` error value. -/
theorem decode_short_malformed_witness :
    ([] : Bytes).length < reportSize ∧
    decode [] = Except.error DecodeError.Malformed :=
  ⟨by decide, (decode_short_malformed [] (by decide)).1⟩

/-- Witness for claim C5: on `envOk` (flag unset, temp dir and provider
write succeed) the provider-selection write of the run is performed. -/
theorem provider_selector_exclusive_witness :
    (if envOk.svsm_attribute then Step.writeSvsm "1"
     else Step.writeServiceProvider "svsm") ∈ (main envOk).1 :=
  (provider_selector_exclusive envOk).2.2.2 rfl rfl

/-- The run on `envOk` evaluates to this explicit successful trace. -/
theorem main_envOk_eq :
    main envOk =
      ([Step.writeServiceProvider "svsm", Step.writeInblob nonce,
        Step.writeServiceGuid attest_vtpm_guid, Step.readOutblob goodOutblob,
        Step.writeReportBin goodOutblob, Step.readManifestblob [5],
        Step.decodeReport goodOutblob, Step.buildEkTemplate .Rsa,
        Step.openContext "device:/dev/tpmrm0", Step.createPrimary [5],
        Step.keyCheck [5] [5],
        Step.hashCheck (List.replicate 64 0) (List.replicate 64 0)], .ok) := rfl

/-- Witness for claim C6: on `envOk` the `outblob` read is in the trace
and is preceded by exactly the three input writes. -/
theorem inputs_written_before_outputs_read_witness :
    (main envOk).1.take 4 =
      [providerStep envOk, Step.writeInblob nonce,
        Step.writeServiceGuid attest_vtpm_guid, Step.readOutblob goodOutblob] := by
  obtain ⟨r, hr⟩ :=
    (inputs_written_before_outputs_read envOk).1 goodOutblob
      (by rw [main_envOk_eq]; simp)
  rw [hr]
  rfl

/-- Witness for claim C7: the nonce has length 64, and on `envOk` the
bytes written to `inblob` are exactly the nonce. -/
theorem nonce_length_invariant_witness :
    nonce.length = 64 ∧
    Step.writeInblob (List.replicate 64 255) ∈ (main envOk).1 ∧
    List.replicate 64 255 = nonce :=
  ⟨(nonce_length_invariant envOk).1, by decide,
    (nonce_length_invariant envOk).2.1 (List.replicate 64 255) (by decide)⟩

/-- Witness for claim C8: on `envOk` a later stage runs, and the
`report.bin` write of the exact `outblob` bytes is in the trace. -/
theorem report_bin_persisted_first_witness :
    Step.writeReportBin goodOutblob ∈ (main envOk).1 := by
  obtain ⟨ob, r, hob, htr, -⟩ := report_bin_persisted_first envOk (by decide)
  injection hob with hob
  rw [htr, ← hob]
  simp

/-- Witness for claim C9: on `envTcti` the environment override is set
and is selected as the device path even though `/dev/tpmrm0` does not
exist there. -/
theorem tcti_path_selection_witness :
    envTcti.tcti = some "device:/dev/tpm9" ∧
    envTcti.tpmrm0Exists = false ∧
    tcti_path envTcti = "device:/dev/tpm9" :=
  ⟨rfl, rfl, (tcti_path_selection envTcti).1 "device:/dev/tpm9" rfl⟩

/-- Witness for claim C10: on `envOk` a template-build step is in the
trace, its algorithm is RSA, and the run does not end with the
unsupported-algorithm failure. -/
theorem ek_algorithm_hardcoded_rsa_witness :
    Step.buildEkTemplate AsymmetricAlgorithm.Rsa ∈ (main envOk).1 ∧
    AsymmetricAlgorithm.Rsa = AsymmetricAlgorithm.Rsa ∧
    (main envOk).2 ≠ Outcome.panicked Stage.ekTemplate :=
  ⟨by decide,
    (ek_algorithm_hardcoded_rsa envOk).1 AsymmetricAlgorithm.Rsa (by decide),
    (ek_algorithm_hardcoded_rsa envOk).2.2⟩

end SvsmVtpmTest
